import Mathlib

/-!
Verification of the sipgate AI Flow webhook (`src/ab/ai-flow-webhook.py`),
the session-oriented voicemail event processor.

The Python module keeps a global dict `sessions` mapping a session id to a
per-call record (a dict with keys `caller`, `messages`, `beeped`, `thanked`;
missing keys are read through `.get` with falsy defaults), dispatches inbound
JSON events in `FlowHandler.handle_event`, and fires best-effort
notifications through `notify_clawdbot`.  Here the store is embedded as a
function from session ids to optional records, events as records of optional
fields (a missing JSON field is `none`), and each call to `notify_clawdbot`
is recorded as an emitted `Notification` value.
-/

namespace AbWebhook

/-- The greeting text spoken on `session_start` (source line 17). -/
def GREETING : String :=
  "Hallo, hier ist der Anrufbeantworter von YuzuHub. " ++
  "Wir sind gerade nicht erreichbar. " ++
  "Bitte hinterlasse eine Nachricht nach dem Signalton, und wir melden uns bei dir."

/-- The closing thank-you text (source line 31). -/
def THANKS : String :=
  "Danke für deine Nachricht. Wir melden uns so bald wie möglich. Tschüss!"

/-- The re-prompt spoken on a silence timeout with no collected messages
(source line 162). -/
def REPROMPT : String :=
  "Hallo? Wenn du eine Nachricht hinterlassen möchtest, sprich einfach los."

/-- One session record of the `sessions` dict.  In Python the record is a
dict whose keys may be absent; every read of `beeped`/`thanked` goes through
`.get` with a falsy default, so an absent key is observationally `false` and
is embedded as the explicit value `false`. -/
structure Session where
  caller : String
  messages : List String
  beeped : Bool
  thanked : Bool
deriving DecidableEq, Repr

/-- The record created lazily for a session first seen via `user_speak` or
`user_input_timeout` (source lines 133, 144): `{"caller": "unbekannt",
"messages": []}` with no `beeped`/`thanked` keys. -/
def unknownSession : Session :=
  { caller := "unbekannt", messages := [], beeped := false, thanked := false }

/-- The global `sessions` dict, as a map from session id to record. -/
def Store : Type := String → Option Session

/-- Dict lookup: `sessions.get(id)` / `id in sessions`. -/
def Store.find? (st : Store) (id : String) : Option Session := st id

/-- Dict write: `sessions[id] = v` (replaces any existing record). -/
def Store.insert (st : Store) (id : String) (v : Session) : Store :=
  fun k => if k = id then some v else st k

/-- Dict removal: `sessions.pop(id, {})` (the popped value is read
separately via `Store.find?`). -/
def Store.erase (st : Store) (id : String) : Store :=
  fun k => if k = id then none else st k

/-- The empty `sessions` dict at process start. -/
def Store.empty : Store := fun _ => none

/-- The `session` object of an inbound event payload; each field may be
missing. -/
structure SessionInfo where
  id : Option String
  from_phone_number : Option String
  direction : Option String
deriving DecidableEq, Repr

/-- An inbound webhook event (a JSON object); each expected field may be
missing, in which case the code substitutes a default via `.get`. -/
structure Event where
  type : Option String
  session : Option SessionInfo
  text : Option String
deriving DecidableEq, Repr

/-- `event.get("type", "")` (source line 104). -/
def Event.eventType (e : Event) : String := e.type.getD ""

/-- `event.get("session", {}).get("id", "")` (source lines 105-106). -/
def Event.sessionId (e : Event) : String :=
  match e.session with
  | some s => s.id.getD ""
  | none => ""

/-- `session.get("from_phone_number", "unbekannt")` (source line 109). -/
def Event.callerOf (e : Event) : String :=
  match e.session with
  | some s => s.from_phone_number.getD "unbekannt"
  | none => "unbekannt"

/-- `event.get("text", "")` (source line 128). -/
def Event.textOf (e : Event) : String := e.text.getD ""

/-- Python's `str.strip()`: drop whitespace from both ends. -/
def pyStrip (s : String) : String :=
  String.mk (((s.data.dropWhile Char.isWhitespace).reverse.dropWhile
    Char.isWhitespace).reverse)

/-- One invocation of `notify_clawdbot(caller, messages)` (source line 38),
recorded by its arguments. -/
structure Notification where
  caller : String
  messages : List String
deriving DecidableEq, Repr

/-- `"\n".join(f"  > {m}" for m in messages) if messages else
"  (keine Nachricht hinterlassen)"` (source line 41). -/
def formatMessages (messages : List String) : String :=
  match messages with
  | [] => "  (keine Nachricht hinterlassen)"
  | _ => String.intercalate "\n" (messages.map (fun m => "  > " ++ m))

/-- The notification body built by `notify_clawdbot` (source lines 43-48);
the wall-clock timestamp is a parameter. -/
def notifyText (timestamp caller : String) (messages : List String) : String :=
  "📞 Anruf auf dem AB\nVon: " ++ caller ++ "\nZeit: " ++ timestamp ++
  "\nNachricht:\n" ++ formatMessages messages

/-- An action replied to the telephony platform (the JSON body of a 200
response). -/
inductive Action where
  | speak (session_id : String) (text : String) (timeout : Option Nat)
  | audio (session_id : String) (payload : String)
deriving DecidableEq, Repr

/-- The outcome of one `handle_event` call: the updated `sessions` dict, the
returned action (`none` models Python's `None`), and the notifications fired
during the call. -/
structure StepResult where
  store : Store
  action : Option Action
  notifs : List Notification

/-- `FlowHandler.handle_event` (source lines 103-195).  `beepAudio` is the
module-level `BEEP_AUDIO` blob (`none` when `beep.b64` was absent). -/
def handle_event (beepAudio : Option String) (store : Store) (e : Event) :
    StepResult :=
  let event_type := e.eventType
  let session_id := e.sessionId
  if event_type = "session_start" then
    let caller := e.callerOf
    let store := store.insert session_id
      { caller := caller, messages := [], beeped := false, thanked := false }
    { store := store,
      action := some (.speak session_id GREETING (some 30)),
      notifs := [] }
  else if event_type = "user_speak" then
    let text := pyStrip e.textOf
    let store1 :=
      if (store.find? session_id).isNone then
        store.insert session_id unknownSession
      else store
    let store2 :=
      if text ≠ "" then
        match store1.find? session_id with
        | some s =>
          store1.insert session_id { s with messages := s.messages ++ [text] }
        | none => store1
      else store1
    { store := store2, action := none, notifs := [] }
  else if event_type = "user_input_timeout" then
    let store1 :=
      if (store.find? session_id).isNone then
        store.insert session_id unknownSession
      else store
    let data := (store1.find? session_id).getD unknownSession
    let messages := data.messages
    let already_thanked := data.thanked
    if messages ≠ [] ∧ already_thanked = false then
      { store := store1.insert session_id { data with thanked := true },
        action := some (.speak session_id THANKS none),
        notifs := [{ caller := data.caller, messages := messages }] }
    else if messages = [] then
      { store := store1,
        action := some (.speak session_id REPROMPT (some 15)),
        notifs := [] }
    else
      { store := store1, action := none, notifs := [] }
  else if event_type = "session_end" then
    let data := (store.find? session_id).getD unknownSession
    let store1 := store.erase session_id
    if data.thanked = false then
      { store := store1, action := none,
        notifs := [{ caller := data.caller, messages := data.messages }] }
    else
      { store := store1, action := none, notifs := [] }
  else if event_type = "assistant_speak" then
    { store := store, action := none, notifs := [] }
  else if event_type = "assistant_speech_ended" then
    match store.find? session_id with
    | some s =>
      if s.beeped = false ∧ beepAudio.isSome then
        { store := store.insert session_id { s with beeped := true },
          action := some (.audio session_id (beepAudio.getD "")),
          notifs := [] }
      else
        { store := store, action := none, notifs := [] }
    | none =>
      if beepAudio.isSome then
        { store := store, action := some (.audio session_id (beepAudio.getD "")),
          notifs := [] }
      else
        { store := store, action := none, notifs := [] }
  else
    { store := store, action := none, notifs := [] }

/-- The outcome of processing a sequence of events. -/
structure RunResult where
  store : Store
  actions : List (Option Action)
  notifs : List Notification

/-- Process a list of inbound events in order through `handle_event`,
threading the `sessions` dict and collecting every action and
notification. -/
def runEvents (beepAudio : Option String) (store : Store) :
    List Event → RunResult
  | [] => { store := store, actions := [], notifs := [] }
  | e :: es =>
    let r := handle_event beepAudio store e
    let rest := runEvents beepAudio r.store es
    { store := rest.store,
      actions := r.action :: rest.actions,
      notifs := r.notifs ++ rest.notifs }

/-- Event constructor: a `session_start` payload with caller and direction. -/
def startEvent (sid : String) (caller : Option String) : Event :=
  { type := some "session_start",
    session := some { id := some sid, from_phone_number := caller,
                      direction := some "inbound" },
    text := none }

/-- Event constructor: a `user_speak` payload. -/
def speakEvent (sid : String) (text : String) : Event :=
  { type := some "user_speak",
    session := some { id := some sid, from_phone_number := none,
                      direction := none },
    text := some text }

/-- Event constructor: a `user_input_timeout` payload. -/
def timeoutEvent (sid : String) : Event :=
  { type := some "user_input_timeout",
    session := some { id := some sid, from_phone_number := none,
                      direction := none },
    text := none }

/-- Event constructor: a `session_end` payload. -/
def endEvent (sid : String) : Event :=
  { type := some "session_end",
    session := some { id := some sid, from_phone_number := none,
                      direction := none },
    text := none }

/-- Event constructor: an `assistant_speech_ended` payload. -/
def speechEndedEvent (sid : String) : Event :=
  { type := some "assistant_speech_ended",
    session := some { id := some sid, from_phone_number := none,
                      direction := none },
    text := none }

/-- The HTTP response produced by `FlowHandler.do_POST`: 401 and 400 with
empty bodies, 200 with a JSON action body, 204 with an empty body. -/
inductive HttpResult where
  | unauthorized
  | badRequest
  | ok (body : Action)
  | noContent
deriving DecidableEq, Repr

/-- `FlowHandler.do_POST` (source lines 68-101).  `secret` is the
module-level `SECRET`, `token` the value of the `X-API-TOKEN` header read
through `.get` with default `""`, and `parsed` the result of
`json.loads` (`none` models a `JSONDecodeError`). -/
def do_POST (secret : String) (token : String) (parsed : Option Event)
    (beepAudio : Option String) (store : Store) :
    HttpResult × Store × List Notification :=
  if secret ≠ "" ∧ token ≠ secret then
    (.unauthorized, store, [])
  else
    match parsed with
    | none => (.badRequest, store, [])
    | some e =>
      let r := handle_event beepAudio store e
      match r.action with
      | some a => (.ok a, r.store, r.notifs)
      | none => (.noContent, r.store, r.notifs)

/-- An event with every expected field replaced by the default the code
substitutes through `.get`: `type → ""`, `session.id → ""`,
`session.from_phone_number → "unbekannt"`, `session.direction → "inbound"`,
`text → ""`. -/
def Event.withDefaults (e : Event) : Event :=
  { type := some e.eventType,
    session := some
      { id := some e.sessionId,
        from_phone_number := some e.callerOf,
        direction := some (match e.session with
          | some s => s.direction.getD "inbound"
          | none => "inbound") },
    text := some e.textOf }

theorem Event.eventType_withDefaults (e : Event) :
    e.withDefaults.eventType = e.eventType := rfl

theorem Event.sessionId_withDefaults (e : Event) :
    e.withDefaults.sessionId = e.sessionId := rfl

theorem Event.callerOf_withDefaults (e : Event) :
    e.withDefaults.callerOf = e.callerOf := rfl

theorem Event.textOf_withDefaults (e : Event) :
    e.withDefaults.textOf = e.textOf := rfl

theorem Store.find?_insert_self (st : Store) (id : String) (v : Session) :
    (st.insert id v).find? id = some v := by
  simp [Store.insert, Store.find?]

theorem Store.find?_insert_ne (st : Store) (id k : String) (v : Session)
    (h : k ≠ id) : (st.insert id v).find? k = st.find? k := by
  simp [Store.insert, Store.find?, h]

theorem Store.find?_erase_self (st : Store) (id : String) :
    (st.erase id).find? id = none := by
  simp [Store.erase, Store.find?]

theorem Store.find?_erase_ne (st : Store) (id k : String) (h : k ≠ id) :
    (st.erase id).find? k = st.find? k := by
  simp [Store.erase, Store.find?, h]

theorem Store.erase_not_mem (st : Store) (id : String)
    (h : st.find? id = none) : st.erase id = st := by
  funext k
  by_cases hk : k = id
  · subst hk; simpa [Store.erase] using h.symm
  · simp [Store.erase, hk]

theorem Store.find?_insert_cases (st : Store) (id k : String) (v s' : Session)
    (h : (st.insert id v).find? k = some s') :
    s' = v ∨ st.find? k = some s' := by
  by_cases hk : k = id
  · subst hk
    rw [Store.find?_insert_self] at h
    exact Or.inl (Option.some.inj h).symm
  · rw [Store.find?_insert_ne st id k v hk] at h
    exact Or.inr h

/-- The event sequence refuting C1: a normal call followed by a duplicated
`session_end`. -/
def c1Events : List Event :=
  [startEvent "s" (some "+491701234567"), speakEvent "s" "A",
   timeoutEvent "s", endEvent "s", endEvent "s"]

/-- Claim C1 (counterexample): the claim "exactly one notification per session,
regardless of duplication of `session_end`" fails.  For the session `"s"`
which produced the utterance `"A"`, processing
`session_start, user_speak, user_input_timeout, session_end, session_end`
fires two notifications: the timeout thanks and notifies, the first
`session_end` sees `thanked` and stays silent, but the duplicated
`session_end` finds no record, defaults `thanked` to false, and notifies
again. -/
theorem c1_counterexample :
    (runEvents none Store.empty c1Events).notifs =
      [{ caller := "+491701234567", messages := ["A"] },
       { caller := "unbekannt", messages := [] }] ∧
    (runEvents none Store.empty c1Events).notifs.length ≠ 1 := by
  exact ⟨rfl, by decide⟩

/-- Claim C1 (amended): for a session whose record holds at least one message
and is not yet thanked, processing one `user_input_timeout` followed by one
`session_end` fires exactly one notification, carrying the session's caller
and messages.  (The unrestricted claim — any arrival order with duplicated
`session_start`/`session_end` events — is refuted by the counterexample:
a duplicated `session_end` notifies a second time.) -/
theorem c1_exactly_once (beep : Option String) (st : Store) (sid : String)
    (s : Session) (hfind : st.find? sid = some s) (hmsg : s.messages ≠ [])
    (hth : s.thanked = false) :
    (runEvents beep st [timeoutEvent sid, endEvent sid]).notifs =
      [{ caller := s.caller, messages := s.messages }] := by
  simp [runEvents, handle_event, timeoutEvent, endEvent, Event.eventType,
    Event.sessionId, hfind, hmsg, hth, Store.find?_insert_self]

/-- The starting store for the `c1_exactly_once` witness: one session with a
collected message, not yet thanked. -/
def c1Store : Store :=
  Store.empty.insert "s"
    { caller := "+49", messages := ["A"], beeped := false, thanked := false }

/-- Witness for `c1_exactly_once` at a concrete store. -/
theorem c1_exactly_once_witness :
    (c1Store.find? "s" =
      some { caller := "+49", messages := ["A"], beeped := false,
             thanked := false }) ∧
    (runEvents none c1Store [timeoutEvent "s", endEvent "s"]).notifs =
      [{ caller := "+49", messages := ["A"] }] :=
  ⟨rfl, c1_exactly_once none c1Store "s"
    { caller := "+49", messages := ["A"], beeped := false, thanked := false }
    rfl (by decide) rfl⟩

/-- Claim C5: missing or partial event data is tolerated by substituting the
defaults (`type → ""`, `session.id → ""`, `caller → "unbekannt"`,
`text → ""`): `handle_event` treats every event exactly as its
fully-defaulted counterpart, and — being a total function — always returns
normally with an updated store and an action-or-no-action; no malformed
payload can make event handling fail. -/
theorem c5_defaults_substituted (beep : Option String) (st : Store)
    (e : Event) :
    handle_event beep st (Event.withDefaults e) = handle_event beep st e := by
  unfold handle_event
  rw [Event.eventType_withDefaults, Event.sessionId_withDefaults,
    Event.callerOf_withDefaults, Event.textOf_withDefaults]

/-- `handle_event` only ever touches the store entry of the event's own
session id: every other key is left unchanged. -/
theorem handle_event_frame (beep : Option String) (st : Store) (e : Event)
    (k : String) (hk : k ≠ e.sessionId) :
    (handle_event beep st e).store.find? k = st.find? k := by
  simp only [handle_event]
  repeat' split
  all_goals
    simp [Store.find?_insert_ne, Store.find?_erase_ne, hk]

/-- The store refuting C2: one session already thanked. -/
def c2Store : Store :=
  Store.empty.insert "s"
    { caller := "c", messages := ["A"], beeped := false, thanked := true }

/-- Claim C2 (counterexample): a duplicated `session_start` for a session whose
`thanked` flag is already true replaces the record with a fresh one, so one
event-processing step changes `thanked` from true back to false. -/
theorem c2_counterexample :
    (c2Store.find? "s" =
      some { caller := "c", messages := ["A"], beeped := false,
             thanked := true }) ∧
    ((handle_event none c2Store (startEvent "s" (some "c"))).store.find? "s" =
      some { caller := "c", messages := [], beeped := false,
             thanked := false }) :=
  ⟨rfl, rfl⟩

/-- Claim C2 (amended): the `thanked` flag is monotone under every event type
except `session_start`: if a session's record has `thanked = true`, then
after processing any non-`session_start` event, whatever record is still
stored under that key has `thanked = true` (a `session_end` removes the
record rather than resetting the flag).  A duplicated `session_start`
replaces the record with a fresh one whose `thanked` is false, refuting the
unrestricted claim. -/
theorem c2_thanked_monotone (beep : Option String) (st : Store) (e : Event)
    (k : String) (s : Session) (hty : e.eventType ≠ "session_start")
    (hfind : st.find? k = some s) (hth : s.thanked = true) :
    ∀ s', (handle_event beep st e).store.find? k = some s' →
      s'.thanked = true := by
  intro s' hs'
  by_cases hk : k = e.sessionId
  case neg =>
    rw [handle_event_frame beep st e k hk, hfind] at hs'
    cases hs'
    exact hth
  case pos =>
  subst hk
  by_cases h1 : e.eventType = "session_start"
  · exact absurd h1 hty
  by_cases h2 : e.eventType = "user_speak"
  · by_cases ht : pyStrip e.textOf = ""
    · simp [handle_event, h1, h2, hfind, ht] at hs'
      rw [← hs']
      exact hth
    · simp [handle_event, h1, h2, hfind, ht, Store.find?_insert_self] at hs'
      rw [← hs']
      exact hth
  by_cases h3 : e.eventType = "user_input_timeout"
  · by_cases hm : s.messages = []
    · simp [handle_event, h1, h2, h3, hfind, hth, hm] at hs'
      rw [← hs']
      exact hth
    · simp [handle_event, h1, h2, h3, hfind, hth, hm] at hs'
      rw [← hs']
      exact hth
  by_cases h4 : e.eventType = "session_end"
  · simp [handle_event, h1, h2, h3, h4] at hs'
    split at hs' <;> simp [Store.find?_erase_self] at hs'
  by_cases h5 : e.eventType = "assistant_speak"
  · simp [handle_event, h1, h2, h3, h4, h5, hfind] at hs'
    rw [← hs']
    exact hth
  by_cases h6 : e.eventType = "assistant_speech_ended"
  · by_cases hb : s.beeped = false ∧ beep.isSome
    · simp [handle_event, h1, h2, h3, h4, h5, h6, hfind, hb,
        Store.find?_insert_self] at hs'
      rw [← hs']
      exact hth
    · simp [handle_event, h1, h2, h3, h4, h5, h6, hfind, hb] at hs'
      rw [← hs']
      exact hth
  · simp [handle_event, h1, h2, h3, h4, h5, h6, hfind] at hs'
    rw [← hs']
    exact hth

/-- Witness for `c2_thanked_monotone`: a `user_input_timeout` on an
already-thanked session leaves its `thanked` flag true. -/
theorem c2_thanked_monotone_witness :
    ((Store.empty.insert "s"
        { caller := "c", messages := ["A"], beeped := false,
          thanked := true }).find? "s" =
      some { caller := "c", messages := ["A"], beeped := false,
             thanked := true }) ∧
    (∀ s', (handle_event none
        (Store.empty.insert "s"
          { caller := "c", messages := ["A"], beeped := false,
            thanked := true })
        (timeoutEvent "s")).store.find? "s" = some s' →
      s'.thanked = true) :=
  ⟨rfl, c2_thanked_monotone none _ (timeoutEvent "s") "s"
    { caller := "c", messages := ["A"], beeped := false, thanked := true }
    (by decide) rfl rfl⟩

/-- Claim C3 (counterexample): not every event type lazily creates a session
record.  A `session_end` for a session id with no record pops nothing and
creates nothing: afterwards the id still has no record (the same holds for
`assistant_speak`, `assistant_speech_ended`, and unrecognized types). -/
theorem c3_counterexample :
    Store.empty.find? "s" = none ∧
    (handle_event none Store.empty (endEvent "s")).store.find? "s" = none :=
  ⟨rfl, rfl⟩

/-- Claim C3 (amended): lazy creation with the default caller `"unbekannt"`
holds for `user_speak` and `user_input_timeout` events (the two
out-of-order arrivals the spec names): processing such an event for a
session id with no record creates a record for that id whose caller is the
default `"unbekannt"`, rather than failing.  (`session_start` creates a
record with the payload's caller; `session_end`, `assistant_speak`,
`assistant_speech_ended`, and unrecognized types create no record, refuting
the "every event type" form of the claim.) -/
theorem c3_lazy_creation (beep : Option String) (st : Store) (e : Event)
    (hty : e.eventType = "user_speak" ∨ e.eventType = "user_input_timeout")
    (hfind : st.find? e.sessionId = none) :
    ∃ rec, (handle_event beep st e).store.find? e.sessionId = some rec ∧
      rec.caller = "unbekannt" := by
  rcases hty with hty | hty
  · by_cases ht : pyStrip e.textOf = ""
    · exact ⟨unknownSession,
        by simp [handle_event, hty, hfind, ht, Store.find?_insert_self], rfl⟩
    · refine ⟨{ unknownSession with messages := [pyStrip e.textOf] }, ?_, rfl⟩
      simp [handle_event, hty, hfind, ht, Store.find?_insert_self,
        unknownSession]
  · exact ⟨unknownSession,
      by simp [handle_event, hty, hfind, Store.find?_insert_self,
        unknownSession], rfl⟩

/-- Witness for `c3_lazy_creation`: a first-contact `user_speak` creates the
session with caller `"unbekannt"`. -/
theorem c3_lazy_creation_witness :
    ((speakEvent "s" "Hallo").eventType = "user_speak" ∨
      (speakEvent "s" "Hallo").eventType = "user_input_timeout") ∧
    Store.empty.find? (speakEvent "s" "Hallo").sessionId = none ∧
    ∃ rec, (handle_event none Store.empty
        (speakEvent "s" "Hallo")).store.find?
        (speakEvent "s" "Hallo").sessionId = some rec ∧
      rec.caller = "unbekannt" :=
  ⟨Or.inl rfl, rfl,
    c3_lazy_creation none Store.empty (speakEvent "s" "Hallo")
      (Or.inl rfl) rfl⟩

/-- Claim C4 (counterexample): for a session id with no record in the store,
the `beeped` write is lost (it lands on a throwaway record), so two
consecutive `assistant_speech_ended` events both yield an `audio` action —
the second is not a no-action response. -/
theorem c4_counterexample :
    Store.empty.find? "s" = none ∧
    (handle_event (some "BEEP") Store.empty
        (speechEndedEvent "s")).action = some (.audio "s" "BEEP") ∧
    (handle_event (some "BEEP")
        (handle_event (some "BEEP") Store.empty
          (speechEndedEvent "s")).store
        (speechEndedEvent "s")).action = some (.audio "s" "BEEP") :=
  ⟨rfl, rfl, rfl⟩

/-- Claim C4 (amended): for a session that has a record in the store, the
`beeped` flag transitions false→true at most once under
`assistant_speech_ended` events, and two consecutive such events (audio blob
loaded) yield exactly one `audio` action followed by a no-action response.
For a session id with no record, the flag write is lost and every such event
replays the beep, refuting the unrestricted claim. -/
theorem c4_beep_once (b : String) (st : Store) (sid : String) (s : Session)
    (hfind : st.find? sid = some s) (hb : s.beeped = false) :
    (handle_event (some b) st (speechEndedEvent sid)).action =
      some (.audio sid b) ∧
    (handle_event (some b) st (speechEndedEvent sid)).store.find? sid =
      some { s with beeped := true } ∧
    (handle_event (some b)
        (handle_event (some b) st (speechEndedEvent sid)).store
        (speechEndedEvent sid)).action = none ∧
    (handle_event (some b)
        (handle_event (some b) st (speechEndedEvent sid)).store
        (speechEndedEvent sid)).store.find? sid =
      some { s with beeped := true } := by
  have h1 : handle_event (some b) st (speechEndedEvent sid) =
      { store := st.insert sid { s with beeped := true },
        action := some (.audio sid b), notifs := [] } := by
    simp [handle_event, speechEndedEvent, Event.eventType, Event.sessionId,
      hfind, hb]
  have h2 : (st.insert sid { s with beeped := true }).find? sid =
      some { s with beeped := true } := Store.find?_insert_self _ _ _
  refine ⟨by rw [h1], by rw [h1]; exact h2, ?_, ?_⟩
  · rw [h1]
    simp [handle_event, speechEndedEvent, Event.eventType, Event.sessionId, h2]
  · rw [h1]
    simp [handle_event, speechEndedEvent, Event.eventType, Event.sessionId, h2]

/-- The store witnessing `c4_beep_once`: one freshly started session. -/
def c4Store : Store :=
  Store.empty.insert "s"
    { caller := "+49", messages := [], beeped := false, thanked := false }

/-- Witness for `c4_beep_once` on a freshly started session. -/
theorem c4_beep_once_witness :
    (c4Store.find? "s" =
      some { caller := "+49", messages := [], beeped := false,
             thanked := false }) ∧
    (handle_event (some "BEEP") c4Store
        (speechEndedEvent "s")).action = some (.audio "s" "BEEP") ∧
    (handle_event (some "BEEP")
        (handle_event (some "BEEP") c4Store
          (speechEndedEvent "s")).store
        (speechEndedEvent "s")).action = none :=
  ⟨rfl,
    (c4_beep_once "BEEP" c4Store "s"
      { caller := "+49", messages := [], beeped := false, thanked := false }
      rfl rfl).1,
    (c4_beep_once "BEEP" c4Store "s"
      { caller := "+49", messages := [], beeped := false, thanked := false }
      rfl rfl).2.2.1⟩

/-- Running a block of `user_speak` events whose texts are all non-blank
after stripping appends the stripped texts, in order, to the session's
`messages`; every reply is "no action" and no notification fires. -/
theorem runEvents_user_speak (beep : Option String) (sid : String)
    (texts : List String) (st : Store) (s : Session)
    (hfind : st.find? sid = some s)
    (h : ∀ t ∈ texts, pyStrip t ≠ "") :
    (runEvents beep st (texts.map (speakEvent sid))).store.find? sid =
      some { s with messages := s.messages ++ texts.map pyStrip } ∧
    (runEvents beep st (texts.map (speakEvent sid))).actions =
      texts.map (fun _ => none) ∧
    (runEvents beep st (texts.map (speakEvent sid))).notifs = [] := by
  induction texts generalizing st s with
  | nil => simpa [runEvents] using hfind
  | cons t ts ih =>
    have ht : pyStrip t ≠ "" := h t (List.mem_cons_self t ts)
    have hstep : handle_event beep st (speakEvent sid t) =
        { store := st.insert sid
            { s with messages := s.messages ++ [pyStrip t] },
          action := none, notifs := [] } := by
      simp [handle_event, speakEvent, Event.eventType, Event.sessionId,
        Event.textOf, hfind, ht]
    have ih2 := ih
      (st.insert sid { s with messages := s.messages ++ [pyStrip t] })
      { s with messages := s.messages ++ [pyStrip t] }
      (Store.find?_insert_self _ _ _)
      (fun t' ht' => h t' (List.mem_cons_of_mem t ht'))
    simp only [List.map_cons, runEvents, hstep]
    refine ⟨?_, ?_, ?_⟩
    · simpa [List.append_assoc] using ih2.1
    · simpa using ih2.2.1
    · simpa using ih2.2.2

/-- Claim C6: order preservation.  Starting from a session record with no
collected messages, a sequence of `user_speak` events whose texts are
non-empty (and unaffected by whitespace-stripping) appends exactly those
texts in arrival order — no deduplication, no reordering — every reply is
"no action", and the `user_input_timeout` that follows fires one
notification whose message list is exactly that sequence. -/
theorem c6_order_preserved (beep : Option String) (sid : String)
    (texts : List String) (st : Store) (s : Session)
    (hfind : st.find? sid = some s) (hmsg : s.messages = [])
    (hth : s.thanked = false)
    (htexts : ∀ t ∈ texts, pyStrip t = t ∧ t ≠ "") (hne : texts ≠ []) :
    (runEvents beep st (texts.map (speakEvent sid))).actions =
      texts.map (fun _ => none) ∧
    (runEvents beep st (texts.map (speakEvent sid))).store.find? sid =
      some { s with messages := texts } ∧
    (handle_event beep
        (runEvents beep st (texts.map (speakEvent sid))).store
        (timeoutEvent sid)).notifs =
      [{ caller := s.caller, messages := texts }] ∧
    (handle_event beep
        (runEvents beep st (texts.map (speakEvent sid))).store
        (timeoutEvent sid)).action = some (.speak sid THANKS none) := by
  have hmap : texts.map pyStrip = texts := by
    have h1 : texts.map pyStrip = texts.map id :=
      List.map_congr_left (fun t ht => (htexts t ht).1)
    simpa using h1
  obtain ⟨hstore, hacts, -⟩ := runEvents_user_speak beep sid texts st s hfind
    (fun t ht => by rw [(htexts t ht).1]; exact (htexts t ht).2)
  have hstore2 : (runEvents beep st
      (texts.map (speakEvent sid))).store.find? sid =
      some { s with messages := texts } := by
    rw [hstore, hmsg, hmap]
    simp
  refine ⟨hacts, hstore2, ?_, ?_⟩
  · simp [handle_event, timeoutEvent, Event.eventType, Event.sessionId,
      hstore2, hne, hth]
  · simp [handle_event, timeoutEvent, Event.eventType, Event.sessionId,
      hstore2, hne, hth]

/-- The starting store for the `c6_order_preserved` witness. -/
def c6Store : Store :=
  Store.empty.insert "s"
    { caller := "+49", messages := [], beeped := false, thanked := false }

/-- Witness for `c6_order_preserved`: utterances "A", "B", "C" notify
exactly `["A", "B", "C"]`. -/
theorem c6_order_preserved_witness :
    (c6Store.find? "s" =
      some { caller := "+49", messages := [], beeped := false,
             thanked := false }) ∧
    (∀ t ∈ ["A", "B", "C"], pyStrip t = t ∧ t ≠ "") ∧
    (handle_event none
        (runEvents none c6Store
          (["A", "B", "C"].map (speakEvent "s"))).store
        (timeoutEvent "s")).notifs =
      [{ caller := "+49", messages := ["A", "B", "C"] }] :=
  ⟨rfl, by decide,
    (c6_order_preserved none "s" ["A", "B", "C"] c6Store
      { caller := "+49", messages := [], beeped := false, thanked := false }
      rfl rfl rfl (by decide) (by decide)).2.2.1⟩

/-- Claim C7: a `user_input_timeout` for a session whose record has no
collected messages leaves the store (hence the `thanked` flag) completely
unchanged, fires no notification, and replies with a `speak` re-prompt
carrying a 15-second user-input timeout. -/
theorem c7_silent_timeout (beep : Option String) (st : Store) (sid : String)
    (s : Session) (hfind : st.find? sid = some s) (hmsg : s.messages = []) :
    handle_event beep st (timeoutEvent sid) =
      { store := st, action := some (.speak sid REPROMPT (some 15)),
        notifs := [] } := by
  simp [handle_event, timeoutEvent, Event.eventType, Event.sessionId,
    hfind, hmsg]

/-- The starting store for the `c7_silent_timeout` witness. -/
def c7Store : Store :=
  Store.empty.insert "s"
    { caller := "+49", messages := [], beeped := false, thanked := false }

/-- Witness for `c7_silent_timeout`: a silent caller is re-prompted. -/
theorem c7_silent_timeout_witness :
    (c7Store.find? "s" =
      some { caller := "+49", messages := [], beeped := false,
             thanked := false }) ∧
    handle_event none c7Store (timeoutEvent "s") =
      { store := c7Store, action := some (.speak "s" REPROMPT (some 15)),
        notifs := [] } :=
  ⟨rfl, c7_silent_timeout none c7Store "s"
    { caller := "+49", messages := [], beeped := false, thanked := false }
    rfl rfl⟩

/-- Claim C8: for every sequence of `user_speak` events whose texts are blank
(empty after whitespace-stripping), the session's `messages` stays empty and
every response is a no-action response. -/
theorem c8_blank_speak (beep : Option String) (sid : String)
    (texts : List String) (st : Store)
    (hst : ∀ s, st.find? sid = some s → s.messages = [])
    (h : ∀ t ∈ texts, pyStrip t = "") :
    (runEvents beep st (texts.map (speakEvent sid))).actions =
      texts.map (fun _ => none) ∧
    ∀ s, (runEvents beep st (texts.map (speakEvent sid))).store.find? sid =
      some s → s.messages = [] := by
  induction texts generalizing st with
  | nil => exact ⟨rfl, hst⟩
  | cons t ts ih =>
    have ht : pyStrip t = "" := h t (List.mem_cons_self t ts)
    have hrest : ∀ t' ∈ ts, pyStrip t' = "" :=
      fun t' ht' => h t' (List.mem_cons_of_mem t ht')
    by_cases hn : st.find? sid = none
    · have hstep : handle_event beep st (speakEvent sid t) =
          { store := st.insert sid unknownSession, action := none,
            notifs := [] } := by
        simp [handle_event, speakEvent, Event.eventType, Event.sessionId,
          Event.textOf, hn, ht]
      have ih2 := ih (st.insert sid unknownSession)
        (fun s hs => by
          rw [Store.find?_insert_self] at hs
          cases hs
          rfl) hrest
      simp only [List.map_cons, runEvents, hstep]
      exact ⟨by simp [ih2.1], ih2.2⟩
    · obtain ⟨s0, hs0⟩ := Option.ne_none_iff_exists'.mp hn
      have hstep : handle_event beep st (speakEvent sid t) =
          { store := st, action := none, notifs := [] } := by
        simp [handle_event, speakEvent, Event.eventType, Event.sessionId,
          Event.textOf, hs0, ht]
      have ih2 := ih st hst hrest
      simp only [List.map_cons, runEvents, hstep]
      exact ⟨by simp [ih2.1], ih2.2⟩

/-- Witness for `c8_blank_speak`: two whitespace-only utterances on a fresh
session leave `messages` empty and both replies are no-action. -/
theorem c8_blank_speak_witness :
    (∀ t ∈ ["", "   "], pyStrip t = "") ∧
    (runEvents none Store.empty
      (["", "   "].map (speakEvent "s"))).actions = [none, none] ∧
    ∀ s, (runEvents none Store.empty
        (["", "   "].map (speakEvent "s"))).store.find? "s" = some s →
      s.messages = [] :=
  ⟨by decide,
    (c8_blank_speak none "s" ["", "   "] Store.empty
      (fun s hs => nomatch hs) (by decide)).1,
    (c8_blank_speak none "s" ["", "   "] Store.empty
      (fun s hs => nomatch hs) (by decide)).2⟩

/-- Claim C9: the HTTP boundary.  When a secret is configured and the
`X-API-TOKEN` header value differs from it, the response is a 401 with empty
body and the dispatcher is not invoked (store and notifications untouched);
when the body is not valid JSON (and auth passes), the response is a 400
with empty body; when the dispatcher returns no action, the response is a
204 with empty body, a constructor distinct from every 200 response carrying
an action body. -/
theorem c9_http_boundary (secret token : String) (parsed : Option Event)
    (beep : Option String) (st : Store) :
    ((secret ≠ "" ∧ token ≠ secret) →
      do_POST secret token parsed beep st = (.unauthorized, st, [])) ∧
    ((secret = "" ∨ token = secret) → parsed = none →
      do_POST secret token parsed beep st = (.badRequest, st, [])) ∧
    (∀ e, (secret = "" ∨ token = secret) → parsed = some e →
      (handle_event beep st e).action = none →
      do_POST secret token parsed beep st =
        (.noContent, (handle_event beep st e).store,
          (handle_event beep st e).notifs) ∧
      ∀ a, (HttpResult.noContent ≠ HttpResult.ok a)) := by
  have hneg : (secret = "" ∨ token = secret) →
      ¬(secret ≠ "" ∧ token ≠ secret) := by tauto
  refine ⟨?_, ?_, ?_⟩
  · intro hcond
    simp [do_POST, hcond]
  · intro hcond hp
    subst hp
    simp [do_POST, hneg hcond]
  · intro e hcond hp hact
    subst hp
    constructor
    · simp [do_POST, hneg hcond, hact]
    · intro a
      simp

/-- Witness for `c9_http_boundary` at concrete inputs: a wrong token is
rejected with 401, a malformed body with 400, and a `user_speak` (which
returns no action) yields a 204. -/
theorem c9_http_boundary_witness :
    (("x" ≠ "" ∧ "y" ≠ "x") ∧
      do_POST "x" "y" none none Store.empty =
        (.unauthorized, Store.empty, [])) ∧
    (do_POST "" "" none none Store.empty =
      (.badRequest, Store.empty, [])) ∧
    ((handle_event none Store.empty (speakEvent "s" "A")).action = none ∧
      do_POST "" "" (some (speakEvent "s" "A")) none Store.empty =
        (.noContent,
          (handle_event none Store.empty (speakEvent "s" "A")).store,
          (handle_event none Store.empty (speakEvent "s" "A")).notifs)) :=
  ⟨⟨by decide,
    (c9_http_boundary "x" "y" none none Store.empty).1 ⟨by decide, by decide⟩⟩,
    (c9_http_boundary "" "" none none Store.empty).2.1 (Or.inl rfl) rfl,
    rfl,
    ((c9_http_boundary "" "" (some (speakEvent "s" "A")) none
      Store.empty).2.2 (speakEvent "s" "A") (Or.inl rfl) rfl rfl).1⟩

/-- Claim C10: a `session_end` for a session id that has no record in the
store (never created, or already removed by an earlier `session_end`) still
fires exactly one notification with the default caller `"unbekannt"` and an
empty message list — whose body is formatted with the
"(keine Nachricht hinterlassen)" marker — leaves the store unchanged, and
returns no action. -/
theorem c10_end_unknown (beep : Option String) (st : Store) (sid : String)
    (hfind : st.find? sid = none) :
    handle_event beep st (endEvent sid) =
      { store := st, action := none,
        notifs := [{ caller := "unbekannt", messages := [] }] } ∧
    formatMessages [] = "  (keine Nachricht hinterlassen)" := by
  constructor
  · have herase : st.erase sid = st := Store.erase_not_mem st sid hfind
    simp [handle_event, endEvent, Event.eventType, Event.sessionId, hfind,
      unknownSession, herase]
  · rfl

/-- Witness for `c10_end_unknown`: a `session_end` on the empty store. -/
theorem c10_end_unknown_witness :
    Store.empty.find? "s" = none ∧
    handle_event none Store.empty (endEvent "s") =
      { store := Store.empty, action := none,
        notifs := [{ caller := "unbekannt", messages := [] }] } ∧
    formatMessages [] = "  (keine Nachricht hinterlassen)" :=
  ⟨rfl, (c10_end_unknown none Store.empty "s" rfl).1,
    (c10_end_unknown none Store.empty "s" rfl).2⟩

end AbWebhook
